import Mathlib

/-!
Verification development for the Health Sphere health-signal scoring and
session-orchestration layer.  Each definition is a shallow embedding of a
function from the frontend source (file and function named in its doc
comment); machine numbers are modelled as `Nat`/`ℚ`, JS objects as
structures with `Option` fields for possibly-missing keys, and fallible
or asynchronous operations as explicit outcome values.
-/

/-! ## String helpers

Models of the JavaScript string and regular-expression operations used by
the scoring code: case-insensitive substring test (the `/…/i.test` calls)
and splitting off the part of a label before a separator
(`v.split(' –')[0]`). All work on `List Char` so that they reduce by
`decide` on concrete inputs. -/

/-- Boolean test that the first list is an initial segment of the second. -/
def isPreOf : List Char → List Char → Bool
  | [], _ => true
  | _ :: _, [] => false
  | a :: as, b :: bs => a == b && isPreOf as bs

/-- Boolean substring test: `pat` occurs contiguously inside `l`. -/
def containsSub (pat : List Char) : List Char → Bool
  | [] => isPreOf pat []
  | c :: t => isPreOf pat (c :: t) || containsSub pat t

/-- Lower-case every character (model of the `i` flag on a JS regex whose
pattern is plain lower-case text). -/
def lowerChars (l : List Char) : List Char := l.map Char.toLower

/-- Case-insensitive substring test: model of `/pat/i.test(s)` for an
alternation-free lower-case pattern `pat`. -/
def iContains (s : String) (pat : String) : Bool :=
  containsSub pat.data (lowerChars s.data)

/-- The part of `l` before the first occurrence of `sep` (all of `l` when
`sep` does not occur): model of `s.split(sep)[0]`. -/
def splitHead (sep : List Char) : List Char → List Char
  | [] => []
  | c :: rest => if isPreOf sep (c :: rest) then [] else c :: splitHead sep rest

/-! ## Severity mapping: `scoreFromAnswers` (DailyCheckin.jsx, legacy page)

The fixed 12-question answer set `ns_q1 … ns_q12`; every field is an
`Option String` because a JS object may lack the key. -/

/-- The answers object of the legacy fixed 12-question check-in form. -/
structure Answers where
  ns_q1 : Option String := none
  ns_q2 : Option String := none
  ns_q3 : Option String := none
  ns_q4 : Option String := none
  ns_q5 : Option String := none
  ns_q6 : Option String := none
  ns_q7 : Option String := none
  ns_q8 : Option String := none
  ns_q9 : Option String := none
  ns_q10 : Option String := none
  ns_q11 : Option String := none
  ns_q12 : Option String := none
deriving DecidableEq

/-- The separator used by `v.split(' –')`: a space followed by an en dash. -/
def sepDash : List Char := [' ', '–']

/-- The five outcomes of the key lookup in `scoreFromAnswers`: which key of
the literal object `{None, Normal, Mild, Moderate, Severe}` the label part
before `' –'` hits, or none of them (`unmapped`, the `?? 0.5` default). -/
inductive SeverityKeyHit where
  | noneKey
  | normalKey
  | mildKey
  | moderateKey
  | severeKey
  | unmapped
deriving DecidableEq

/-- The key-lookup half of the inner `map4` of `scoreFromAnswers`:
`v?.split(' –')?.[0]` looked up as an exact, case-sensitive object key.
A missing answer (`undefined`) falls through to `unmapped`. -/
def classifyLabel (v : Option String) : SeverityKeyHit :=
  match v with
  | none => .unmapped
  | some s =>
    let key := splitHead sepDash s.data
    if key = ("None").data then .noneKey
    else if key = ("Normal").data then .normalKey
    else if key = ("Mild").data then .mildKey
    else if key = ("Moderate").data then .moderateKey
    else if key = ("Severe").data then .severeKey
    else .unmapped

/-- The numeric half of `map4`: the values of the literal object
`{None: 1.0, Normal: 1.0, Mild: 0.7, Moderate: 0.4, Severe: 0.2}` with the
`?? 0.5` default. -/
def severityValue : SeverityKeyHit → ℚ
  | .noneKey => 1
  | .normalKey => 1
  | .mildKey => 7/10
  | .moderateKey => 4/10
  | .severeKey => 2/10
  | .unmapped => 1/2

/-- Model of the inner `map4` of `scoreFromAnswers`: exact, case-sensitive
lookup of the label part before `' –'`, defaulting to 0.5. -/
def map4 (v : Option String) : ℚ := severityValue (classifyLabel v)

/-- Model of `Number(x.toFixed(3))`: round to 3 decimal places.  (On the
values reachable here — averages of twelve multiples of 1/10 — the exact
decimal never ends in a half, so the tie-breaking mode is irrelevant.) -/
def roundTo3 (q : ℚ) : ℚ := ((round (q * 1000) : ℤ) : ℚ) / 1000

/-- `scoreFromAnswers` from DailyCheckin.jsx: `null`/`undefined` answers
give 0.5; otherwise the mean of the twelve `map4` values, rounded to 3
decimals and clamped to [0,1] by `Math.max(0, Math.min(1, …))`. -/
def scoreFromAnswers (a : Option Answers) : ℚ :=
  match a with
  | none => 1/2
  | some a =>
    let parts : List ℚ :=
      [map4 a.ns_q1, map4 a.ns_q2, map4 a.ns_q3, map4 a.ns_q4, map4 a.ns_q5,
       map4 a.ns_q6, map4 a.ns_q7, map4 a.ns_q8, map4 a.ns_q9, map4 a.ns_q10,
       map4 a.ns_q11, map4 a.ns_q12]
    let avg := parts.sum / (parts.length : ℚ)
    max 0 (min 1 (roundTo3 avg))

/-- The claim's reading of the key lookup (C2): case-insensitive match of
the label part before its separator. -/
def classifyLabelCaseless (v : Option String) : SeverityKeyHit :=
  match v with
  | none => .unmapped
  | some s =>
    let key := lowerChars (splitHead sepDash s.data)
    if key = ("none").data then .noneKey
    else if key = ("normal").data then .normalKey
    else if key = ("mild").data then .mildKey
    else if key = ("moderate").data then .moderateKey
    else if key = ("severe").data then .severeKey
    else .unmapped

/-- The severity mapping as claim C2 describes it (case-insensitive label
lookup), for comparison with the source's `map4`. -/
def map4ClaimCaseless (v : Option String) : ℚ :=
  severityValue (classifyLabelCaseless v)

/-- `scoreFromAnswers` as the claim describes it (case-insensitive label
mapping); everything else as in the source. -/
def scoreFromAnswersClaim (a : Option Answers) : ℚ :=
  match a with
  | none => 1/2
  | some a =>
    let parts : List ℚ :=
      [map4ClaimCaseless a.ns_q1, map4ClaimCaseless a.ns_q2,
       map4ClaimCaseless a.ns_q3, map4ClaimCaseless a.ns_q4,
       map4ClaimCaseless a.ns_q5, map4ClaimCaseless a.ns_q6,
       map4ClaimCaseless a.ns_q7, map4ClaimCaseless a.ns_q8,
       map4ClaimCaseless a.ns_q9, map4ClaimCaseless a.ns_q10,
       map4ClaimCaseless a.ns_q11, map4ClaimCaseless a.ns_q12]
    let avg := parts.sum / (parts.length : ℚ)
    max 0 (min 1 (roundTo3 avg))

/-- An answer set whose twelve labels are all the lower-case string
"mild – a": concrete input separating the code's case-sensitive lookup
from the claimed case-insensitive one. -/
def lowerMildAnswers : Answers :=
  { ns_q1 := some "mild – a", ns_q2 := some "mild – a", ns_q3 := some "mild – a"
    ns_q4 := some "mild – a", ns_q5 := some "mild – a", ns_q6 := some "mild – a"
    ns_q7 := some "mild – a", ns_q8 := some "mild – a", ns_q9 := some "mild – a"
    ns_q10 := some "mild – a", ns_q11 := some "mild – a", ns_q12 := some "mild – a" }


/-! ## Trend classifier (DailyCheckin.jsx `loadHistory`, legacy page)

A risk point is a score in [0,1]; the source compares two 3-point window
means of the ordered point list `pts`. -/

/-- The trend computation of `loadHistory`: with `n = pts.length`, for
`n ≥ 6` compare the mean of `pts.slice(n-6, n-3)` with the mean of
`pts.slice(n-3)`; delta above 0.06 is "Worsening", below −0.06 is
"Improving", otherwise "Stable".  For `n < 6` the trend stays the empty
string. -/
def riskTrend (pts : List ℚ) : String :=
  let n := pts.length
  if 6 ≤ n then
    let prev := ((pts.drop (n - 6)).take 3).sum / 3
    let lastW := (pts.drop (n - 3)).sum / 3
    let delta := lastW - prev
    if 6/100 < delta then "Worsening"
    else if delta < -(6/100) then "Improving"
    else "Stable"
  else ""

/-- The trend as a function of the two window means only (the spec's
formulation for C3). -/
def trendOfMeans (prev lastW : ℚ) : String :=
  if 6/100 < lastW - prev then "Worsening"
  else if lastW - prev < -(6/100) then "Improving"
  else "Stable"

/-- Concrete 6-point risk series used to instantiate the trend theorem. -/
def demoPoints : List ℚ := [0, 0, 0, 1, 1, 1]

/-! ## Rule-based cluster scorer (Dashboard.jsx `calculateRuleRisk`)

A check-in item is `Option CheckinAnswers` (`it?.answers || {}` tolerates
a null record); only the five answer keys the scorer reads are modelled,
each an `Option String` (the key may be absent). -/

/-- The answer keys read by `calculateRuleRisk`. -/
structure CheckinAnswers where
  ns_q2 : Option String := none
  ns_q3 : Option String := none
  ns_q4 : Option String := none
  ns_q5 : Option String := none
  ns_q11 : Option String := none
deriving DecidableEq

/-- Derived risk summary `{level, reason, score}` (not persisted). -/
structure RiskSummary where
  level : String
  reason : String
  score : Nat
deriving DecidableEq

/-- JS truthiness guard `a.key && test(a.key)`: a missing key or the empty
string is falsy, otherwise the test decides. -/
def answerTest (o : Option String) (t : String → Bool) : Bool :=
  match o with
  | none => false
  | some s => (s != "") && t s

/-- `a.ns_q2 && /mild|moderate|severe/i.test(a.ns_q2)` on an item. -/
def headacheOf (it : Option CheckinAnswers) : Bool :=
  match it with
  | none => false
  | some a =>
    answerTest a.ns_q2
      (fun s => iContains s "mild" || iContains s "moderate" || iContains s "severe")

/-- `a.ns_q11 && /hardly|moderate difficulty/i.test(a.ns_q11)` on an item. -/
def sleepLowOf (it : Option CheckinAnswers) : Bool :=
  match it with
  | none => false
  | some a =>
    answerTest a.ns_q11 (fun s => iContains s "hardly" || iContains s "moderate difficulty")

/-- `a.ns_q5 && /(very low|low)/i.test(a.ns_q5)` on an item. -/
def stressHighOf (it : Option CheckinAnswers) : Bool :=
  match it with
  | none => false
  | some a => answerTest a.ns_q5 (fun s => iContains s "very low" || iContains s "low")

/-- `a.ns_q3 && !/none/i.test(a.ns_q3)` on an item: nausea non-trivial. -/
def nauseaOf (it : Option CheckinAnswers) : Bool :=
  match it with
  | none => false
  | some a => answerTest a.ns_q3 (fun s => !(iContains s "none"))

/-- `a.ns_q4 && !/none/i.test(a.ns_q4)` on an item: weakness non-trivial. -/
def weaknessOf (it : Option CheckinAnswers) : Bool :=
  match it with
  | none => false
  | some a => answerTest a.ns_q4 (fun s => !(iContains s "none"))

/-- `(nausea ? 1 : 0) + (weakness ? 1 : 0) >= 2`: a symptom-cluster day. -/
def clusterOf (it : Option CheckinAnswers) : Bool :=
  (if nauseaOf it then 1 else 0) + (if weaknessOf it then 1 else 0) ≥ 2

/-- The mutable accumulator of `calculateRuleRisk`'s loop. -/
structure RuleState where
  score : Nat
  headacheDays : Nat
  lowSleepDays : Nat
  highStressStreak : Nat
  currentStressStreak : Nat
  clusterHighDays : Nat
deriving DecidableEq

/-- Initial accumulator: all six variables start at 0. -/
def initRuleState : RuleState := ⟨0, 0, 0, 0, 0, 0⟩

/-- One iteration of the `for (const it of items)` loop: each matching
condition adds its weight to `score` and bumps its day counter; the
stress streak is extended or reset, and recorded into `highStressStreak`
only once it reaches 5. -/
def ruleStep (st : RuleState) (it : Option CheckinAnswers) : RuleState :=
  let cur := if stressHighOf it then st.currentStressStreak + 1 else 0
  { score := st.score + (if headacheOf it then 2 else 0) + (if sleepLowOf it then 3 else 0)
      + (if stressHighOf it then 4 else 0) + (if clusterOf it then 6 else 0)
    headacheDays := st.headacheDays + (if headacheOf it then 1 else 0)
    lowSleepDays := st.lowSleepDays + (if sleepLowOf it then 1 else 0)
    highStressStreak := if cur ≥ 5 then max st.highStressStreak cur else st.highStressStreak
    currentStressStreak := cur
    clusterHighDays := st.clusterHighDays + (if clusterOf it then 1 else 0) }

/-- The classification tail of `calculateRuleRisk`: the first matching rule
(in source order) fixes level and reason; the accumulated score is always
returned. -/
def classifyRisk (st : RuleState) : RiskSummary :=
  if st.clusterHighDays ≥ 2 then
    ⟨"High", "Multiple symptoms clustered (e.g., nausea + weakness) on several days.", st.score⟩
  else if st.highStressStreak ≥ 5 then
    ⟨"Mid", "Sustained low mood/stress for 5+ days.", st.score⟩
  else if st.headacheDays ≥ 3 ∧ st.lowSleepDays ≥ 3 then
    ⟨"Mid", "Frequent headaches with low sleep across several days.", st.score⟩
  else if st.score ≥ 20 then
    ⟨"High", "Multiple risk factors accumulated in recent logs.", st.score⟩
  else if st.score ≥ 10 then
    ⟨"Mid", "Some recurring issues detected (sleep/mood/symptoms).", st.score⟩
  else
    ⟨"Low", "No major recurring symptoms.", st.score⟩

/-- `calculateRuleRisk` from Dashboard.jsx: fold the loop body over the
ordered record list, then classify. -/
def calculateRuleRisk (items : List (Option CheckinAnswers)) : RiskSummary :=
  classifyRisk (items.foldl ruleStep initRuleState)

/-! Declarative counterparts used to state C1: per-record day counts and
the longest consecutive run of a predicate, defined independently of the
single-pass accumulator. -/

/-- Length of the run of `p`-satisfying elements at the head of the list. -/
def runLen (p : α → Bool) : List α → Nat
  | [] => 0
  | x :: t => if p x then runLen p t + 1 else 0

/-- Longest consecutive run of `p`-satisfying elements anywhere in the
list: the maximum over all suffixes of the head run length. -/
def longestRun (p : α → Bool) : List α → Nat
  | [] => 0
  | x :: t => max (runLen p (x :: t)) (longestRun p t)

/-- Streak value tracker: the maximum, over every position of the list, of
the current-streak counter when the streak entering the list has length
`cur`.  Bridges the loop accumulator to `longestRun`. -/
def extStreak (p : α → Bool) (cur : Nat) : List α → Nat
  | [] => 0
  | x :: t => if p x then max (cur + 1) (extStreak p (cur + 1) t) else extStreak p 0 t

/-- The source records a streak into `highStressStreak` only once it is at
least 5; below that threshold the recorded value stays 0. -/
def clip5 (n : Nat) : Nat := if n ≥ 5 then n else 0

/-- The classification of C1 stated declaratively: day counts as `countP`,
the sustained-stress rule as a condition on `longestRun`, and the score as
the weighted sum of the counts, combined by the fixed precedence order. -/
def ruleRiskSpec (items : List (Option CheckinAnswers)) : RiskSummary :=
  let h := items.countP headacheOf
  let sl := items.countP sleepLowOf
  let hs := items.countP stressHighOf
  let c := items.countP clusterOf
  let sc := 2 * h + 3 * sl + 4 * hs + 6 * c
  if c ≥ 2 then
    ⟨"High", "Multiple symptoms clustered (e.g., nausea + weakness) on several days.", sc⟩
  else if longestRun stressHighOf items ≥ 5 then
    ⟨"Mid", "Sustained low mood/stress for 5+ days.", sc⟩
  else if h ≥ 3 ∧ sl ≥ 3 then
    ⟨"Mid", "Frequent headaches with low sleep across several days.", sc⟩
  else if sc ≥ 20 then
    ⟨"High", "Multiple risk factors accumulated in recent logs.", sc⟩
  else if sc ≥ 10 then
    ⟨"Mid", "Some recurring issues detected (sleep/mood/symptoms).", sc⟩
  else
    ⟨"Low", "No major recurring symptoms.", sc⟩

/-- A record whose answers make it a symptom-cluster day (nausea and
weakness both non-trivial) and nothing else. -/
def clusterDay : Option CheckinAnswers :=
  some { ns_q3 := some "Mild – occasional queasiness"
         ns_q4 := some "Mild – slightly tired" }

/-- Two cluster days with an accumulated score of only 12: instantiates
the precedence part of C1 (score alone would give "Mid"). -/
def clusterDemo : List (Option CheckinAnswers) := [clusterDay, clusterDay]


/-! ## Daily check-in submission guard (DailyCheckin.jsx
`checkSubmittedToday` / `onSubmit`)

Dates are modelled by their calendar day (`toDateString` equivalence
class) as a `Nat`.  The repository holds the stored check-in days newest
first; `fetchCheckins(userId, 1)` returns its first element. -/

/-- `checkSubmittedToday`: fetch the latest record and report whether its
date falls on the current calendar day (`toDateString` comparison); an
empty repository reports false. -/
def checkSubmittedToday (today : Nat) (repo : List Nat) : Bool :=
  match repo with
  | [] => false
  | latest :: _ => latest == today

/-- The guard chain at the top of `onSubmit`: the submission request is
issued only when auth is not loading, no submission is recorded for
today, and every required question is answered.  (The `!userId` branch is
unreachable: `user?.uid || 'demo'` never yields a falsy id.) -/
def submitIssuesRequest (authLoading submittedToday isValid : Bool) : Bool :=
  !authLoading && !submittedToday && isValid

/-- Effect of a successful submission on the repository: the backend
stores a record dated today, which becomes the newest record. -/
def repoAfterSubmit (today : Nat) (repo : List Nat) : List Nat :=
  today :: repo

/-! ## Upload pipeline retry loop (UploadReport.jsx `submit` / `cancelUpload`)

One submission attempt either succeeds, is canceled (the abort handler
rejects with a message containing "canceled"), or fails with some other
error.  `submitAttemptRetries` counts the automatic retries the `catch`
block schedules over a given stream of attempt outcomes.  It is faithful
to the source in the decisive point: `submit` begins with
`setRetryCount(0)`, so at the `retryCount < maxRetries` comparison in its
own `catch` block the counter is the just-reset value 0, whatever it was
before the call (the retry path `setTimeout(() => { setRetryCount(prev =>
prev + 1); submit(e); }, 2000)` re-enters `submit`, which resets again;
under JS closure semantics the read is the stale initial 0 as well). -/

/-- Outcome of one upload attempt. -/
inductive UploadOutcome where
  | success
  | canceled
  | failure
deriving DecidableEq

/-- The fixed retry ceiling surfaced by the component (`maxRetries`). -/
def maxRetries : Nat := 3

/-- Number of automatic retries performed by `submit` over a stream of
attempt outcomes, starting with surfaced retry counter `retryCount`
(unused precisely because the source resets it on entry — that reset is
the bug C4 exposes). -/
def submitAttemptRetries (_retryCount : Nat) (outcomes : List UploadOutcome) : Nat :=
  match outcomes with
  | [] => 0
  | o :: rest =>
    let r := 0
    match o with
    | .success => 0
    | .canceled => 0
    | .failure =>
      if r < maxRetries then 1 + submitAttemptRetries (r + 1) rest else 0


/-! ## Extraction-quality heuristic (UploadReport.jsx
`calculateExtractionQuality`)

Labs and meta fields use `Option` for possibly-missing JS values; only
the presence of `lab.value` matters (`!== null && !== undefined`). -/

/-- One extracted lab value. -/
structure LabValue where
  confidence : Option ℚ := none
  value : Option ℚ := none

/-- The meta block of an extraction result. -/
structure ReportMeta where
  patientName : Option String := none
  patientId : Option String := none
  date : Option String := none

/-- An extraction result: `labs` may be a non-array (`Array.isArray`
guard) and `meta` may be absent (`|| {}`). -/
structure ExtractedReport where
  labs : Option (List LabValue) := none
  meta : Option ReportMeta := none

/-- The record returned by `calculateExtractionQuality`; the early
`!extractedData` return carries no lab counters. -/
structure ExtractionQuality where
  score : ℚ
  issues : List String
  labCount : Option Nat
  highConfidenceCount : Option Nat

/-- JS truthiness of an optional string field. -/
def truthyStr (o : Option String) : Bool :=
  match o with
  | none => false
  | some s => s != ""

/-- `lab.confidence >= 0.7` (false when confidence is absent). -/
def confAtLeast (lab : LabValue) : Bool :=
  match lab.confidence with
  | none => false
  | some c => decide (c ≥ 7/10)

/-- `lab.value !== null && lab.value !== undefined`. -/
def hasValue (lab : LabValue) : Bool := lab.value.isSome

/-- The labs array of a result after the `Array.isArray` guard. -/
def labsOf (data : ExtractedReport) : List LabValue := data.labs.getD []

/-- The meta block of a result after the `|| {}` default. -/
def metaOf (data : ExtractedReport) : ReportMeta := data.meta.getD ⟨none, none, none⟩

/-- `calculateExtractionQuality` from UploadReport.jsx.  Each condition
appends its issue string and subtracts its weight exactly as the source's
sequential pushes and subtractions do (the first two conditions live in
the `labs.length === 0` if/else, so they exclude each other, and the
confidence/validity deductions apply only in the else branch); the score
is clamped by `Math.max(0, Math.min(1, score))` and an empty issue list
is replaced by the positive message. -/
def calculateExtractionQuality (d : Option ExtractedReport) : ExtractionQuality :=
  match d with
  | none => ⟨0, ["No data extracted"], none, none⟩
  | some data =>
    let labs := labsOf data
    let meta := metaOf data
    let noLabs : Bool := labs.length == 0
    let highConfidenceLabs := labs.filter confAtLeast
    let confidenceRatio : ℚ := (highConfidenceLabs.length : ℚ) / (labs.length : ℚ)
    let validValues := labs.filter hasValue
    let lowConf : Bool := !noLabs && decide (confidenceRatio < 1/2)
    let manyMissing : Bool :=
      !noLabs && decide ((validValues.length : ℚ) < (labs.length : ℚ) * (7/10))
    let noPatient : Bool := !truthyStr meta.patientName && !truthyStr meta.patientId
    let noDate : Bool := !truthyStr meta.date
    let issues : List String :=
      (if noLabs then ["No lab values extracted"] else [])
        ++ (if lowConf then ["Low confidence in extracted lab values"] else [])
        ++ (if manyMissing then ["Many lab values missing or invalid"] else [])
        ++ (if noPatient then ["No patient identification found"] else [])
        ++ (if noDate then ["No report date found"] else [])
    let score : ℚ := 1 - (if noLabs then 4/10 else 0) - (if lowConf then 2/10 else 0)
        - (if manyMissing then 2/10 else 0) - (if noPatient then 1/10 else 0)
        - (if noDate then 1/10 else 0)
    ⟨max 0 (min 1 score),
     if issues.length > 0 then issues else ["Good extraction quality"],
     some labs.length,
     some highConfidenceLabs.length⟩

/-! Declarative deductions used to state C7. -/

/-- 0.4 deduction: zero structured values extracted. -/
def dedNoLabs (data : ExtractedReport) : ℚ :=
  if (labsOf data).length = 0 then 4/10 else 0

/-- 0.2 deduction: fewer than half of the extracted labs reach the 0.7
confidence threshold (only applies when labs were extracted). -/
def dedLowConf (data : ExtractedReport) : ℚ :=
  if (labsOf data).length ≠ 0 ∧
      (((labsOf data).filter confAtLeast).length : ℚ) / ((labsOf data).length : ℚ) < 1/2
  then 2/10 else 0

/-- 0.2 deduction: fewer than 70% of the labs carry a non-null value
(only applies when labs were extracted). -/
def dedManyMissing (data : ExtractedReport) : ℚ :=
  if (labsOf data).length ≠ 0 ∧
      (((labsOf data).filter hasValue).length : ℚ) < ((labsOf data).length : ℚ) * (7/10)
  then 2/10 else 0

/-- 0.1 deduction: neither patient name nor patient id found. -/
def dedNoPatient (data : ExtractedReport) : ℚ :=
  if truthyStr (metaOf data).patientName = false ∧ truthyStr (metaOf data).patientId = false
  then 1/10 else 0

/-- 0.1 deduction: no report date found. -/
def dedNoDate (data : ExtractedReport) : ℚ :=
  if truthyStr (metaOf data).date = false then 1/10 else 0

/-- A fully clean extraction result: one confident lab with a value, and
complete meta. -/
def cleanReport : ExtractedReport :=
  { labs := some [{ confidence := some (9/10), value := some 5 }]
    meta := some { patientName := some "P", patientId := some "17", date := some "2024-01-01" } }

/-! ## Question-set filtering and fallback (DailyCheckin.jsx
`fetchQuestions`, personalized page)

The service call either throws or yields a result object; the result's
`questions` may be a non-array.  The fallback question list is a
parameter: its contents are elided in the source (`/* ... same as before
... */`), and nothing here depends on them. -/

/-- A generated question definition (the fields `fetchQuestions`
inspects). -/
structure Question where
  id : String := ""
  question : String := ""
  type : String := ""
  options : Option (List String) := none
deriving DecidableEq

/-- The response object of `generateQuestionsApi`. -/
structure GenResult where
  ok : Bool := false
  questions : Option (List Question) := none
  question_version : String := ""

/-- The filter of `fetchQuestions`: non-empty id, non-empty prompt, type
exactly "scale", and a non-empty option array. -/
def isValidQuestion (q : Question) : Bool :=
  (q.id != "") && (q.question != "") && (q.type == "scale")
    && (match q.options with
        | some opts => opts.length > 0
        | none => false)

/-- `fetchQuestions` as a function from the service outcome to the
question list and version the session keeps.  A thrown error or a
malformed result yields the fallback set tagged "fallback"; a well-formed
result is filtered, an emptied filter result is replaced by the fallback
set, and the version is `question_version || '1.0'` in both of those
cases. -/
def fetchQuestions (fallback : List Question) (r : Except Unit GenResult) :
    List Question × String :=
  match r with
  | .error _ => (fallback, "fallback")
  | .ok res =>
    match res.questions with
    | some qs =>
      if res.ok then
        let validQuestions := qs.filter isValidQuestion
        let finalQuestions := if validQuestions.length > 0 then validQuestions else fallback
        (finalQuestions, if res.question_version != "" then res.question_version else "1.0")
      else (fallback, "fallback")
    | none => (fallback, "fallback")

/-- A question failing the filter (wrong type). -/
def badQuestion : Question :=
  { id := "q1", question := "How do you feel?", type := "text", options := some ["a", "b"] }

/-- A placeholder fallback set for the concrete counterexample. -/
def demoFallback : List Question :=
  [{ id := "f1", question := "Fallback?", type := "scale", options := some ["None", "Severe"] }]

/-- A service result that is ok and well-formed but whose questions all
fail the filter, carrying version "2.0". -/
def allInvalidResult : GenResult :=
  { ok := true, questions := some [badQuestion], question_version := "2.0" }

/-- A question passing the filter. -/
def goodQuestion : Question :=
  { id := "g1", question := "How is your sleep?", type := "scale"
    options := some ["None", "Mild", "Moderate", "Severe"] }

/-- An ok service result with one valid question and version "3.0". -/
def goodGenResult : GenResult :=
  { ok := true, questions := some [goodQuestion], question_version := "3.0" }


/-! ## Chat session: send and regenerate-last (ChatbotConsole.jsx)

The session state is the message list, the input box, and the loading
flag.  `chatSend` models a successful round trip of `send`: the guard
`canSend`, the optimistic append of the user turn built from `input`, the
clearing of the input, and the append of the assistant reply.
`regenerateLast` truncates to the most recent user turn and re-primes the
input; the scheduled `send()` is modelled by applying `chatSend` to the
resulting state (the most favorable sequencing — under JS closure
semantics the scheduled call would read the pre-regenerate state
instead). -/

/-- Message roles. -/
inductive ChatRole where
  | user
  | assistant
deriving DecidableEq

/-- A chat message (fields relevant to history and regeneration). -/
structure ChatMsg where
  role : ChatRole
  content : String
deriving DecidableEq

/-- Chat session state. -/
structure ChatState where
  messages : List ChatMsg
  input : String
  loading : Bool
deriving DecidableEq

/-- Leading/trailing-whitespace trim on characters (model of
`input.trim()`). -/
def jsTrim (l : List Char) : List Char :=
  ((l.dropWhile Char.isWhitespace).reverse.dropWhile Char.isWhitespace).reverse

/-- `canSend`: non-blank input and no request in flight. -/
def canSend (st : ChatState) : Bool :=
  (jsTrim st.input.data).length > 0 && !st.loading

/-- One successful `send` round trip with reply `reply`: append the user
turn with the current input, clear the input, and append the assistant
reply once the request resolves. -/
def chatSend (st : ChatState) (reply : String) : ChatState :=
  if canSend st then
    { messages := (st.messages ++ [⟨ChatRole.user, st.input⟩]) ++ [⟨ChatRole.assistant, reply⟩]
      input := ""
      loading := false }
  else st

/-- Index of the most recent user turn (`for (let i = length-1; …)`). -/
def findLastUser : List ChatMsg → Option Nat
  | [] => none
  | m :: t =>
    match findLastUser t with
    | some j => some (j + 1)
    | none => if m.role = ChatRole.user then some 0 else none

/-- `regenerateLast`: no-op while loading or without a user turn;
otherwise truncate to (and including) the most recent user turn and
re-prime the input with that turn's text. -/
def regenerateLast (st : ChatState) : ChatState :=
  if st.loading then st
  else
    match findLastUser st.messages with
    | none => st
    | some k =>
      let base := st.messages.take (k + 1)
      { messages := base
        input := (match base.getLast? with
                  | some m => m.content
                  | none => "")
        loading := st.loading }

/-- The two-turn history of C5's scenario. -/
def chatAB : ChatState :=
  ⟨[⟨ChatRole.user, "A"⟩, ⟨ChatRole.assistant, "B"⟩], "", false⟩

/-! ## Inline-markup renderer (ChatbotConsole.jsx `renderMarkdownLite`)

The output is modelled structurally: inline spans (plain, bold, italic)
and blocks (paragraph, blank spacer, bullet list).  The two regex
searches are implemented over `List Char`:
`boldFind` models the first match of `/\*\*([^*]+)\*\*/` and `italFind`
the first match of `/(^|[^*])\*([^*]+)\*(?!\*)/` (attempted at every
position; the `^` alternative only at the start of the remaining text,
which is where each loop iteration applies the regex). -/

/-- An inline span of the rendered output. -/
inductive MdInline where
  | text (s : String)
  | bold (s : String)
  | italic (s : String)
deriving DecidableEq

/-- A block of the rendered output. -/
inductive MdBlock where
  | para (spans : List MdInline)
  | blank
  | bullets (items : List (List MdInline))
deriving DecidableEq

/-- Head match of `\*\*([^*]+)\*\*`: two stars, one-or-more non-stars,
two stars; returns the captured content. -/
def boldAt : List Char → Option (List Char)
  | '*' :: '*' :: rest =>
    let content := rest.takeWhile (· ≠ '*')
    match content, rest.dropWhile (· ≠ '*') with
    | _ :: _, '*' :: '*' :: _ => some content
    | _, _ => none
  | _ => none

/-- First match of the bold pattern: index and captured content. -/
def boldFind : List Char → Option (Nat × List Char)
  | [] => none
  | c :: t =>
    match boldAt (c :: t) with
    | some content => some (0, content)
    | none =>
      match boldFind t with
      | some (i, content) => some (i + 1, content)
      | none => none

/-- The `(?!\*)` negative lookahead after the closing star. -/
def lookaheadOk : List Char → Bool
  | [] => true
  | c :: _ => c ≠ '*'

/-- Head match of `\*([^*]+)\*(?!\*)`: returns the captured content. -/
def italStar : List Char → Option (List Char)
  | '*' :: rest =>
    let content := rest.takeWhile (· ≠ '*')
    match content, rest.dropWhile (· ≠ '*') with
    | _ :: _, '*' :: r2 => if lookaheadOk r2 then some content else none
    | _, _ => none
  | _ => none

/-- Match of the italic pattern at one position: the `^` alternative of
the first group (only when `atStart`), then the single-non-star-char
alternative; returns the group-1 text and the captured content. -/
def italAt (atStart : Bool) : List Char → Option (List Char × List Char)
  | [] => none
  | c :: t =>
    if atStart then
      match italStar (c :: t) with
      | some content => some ([], content)
      | none =>
        if c ≠ '*' then
          match italStar t with
          | some content => some ([c], content)
          | none => none
        else none
    else
      if c ≠ '*' then
        match italStar t with
        | some content => some ([c], content)
        | none => none
      else none

/-- First match of the italic pattern: match index (position of group 1),
group-1 text, and captured content. -/
def italFind (atStart : Bool) : List Char → Option (Nat × List Char × List Char)
  | [] => none
  | c :: t =>
    match italAt atStart (c :: t) with
    | some (leading, content) => some (0, leading, content)
    | none =>
      match italFind false t with
      | some (i, leading, content) => some (i + 1, leading, content)
      | none => none

/-- The `while (remaining.length > 0)` loop of `renderInline`, with
explicit fuel for structural recursion (each iteration consumes at least
one character, so `remaining.length` fuel suffices).  Faithful to the
source's index arithmetic: the bold branch consumes match start plus
match length; the italic branch pushes the text up to
`i.index + leading.length`, pushes the leading character again, and
consumes `(i.index + leading.length) + match0Length - (leading ? 0 : 1)`
characters — reproducing the source's duplicated leading span and its
off-by-one consumption. -/
def renderInlineFuel : Nat → List Char → List MdInline
  | 0, _ => []
  | _, [] => []
  | fuel + 1, remaining =>
    let b := boldFind remaining
    let i := italFind true remaining
    let chooseBold : Bool :=
      match b, i with
      | some (bi, _), some (ii, _, _) => bi ≤ ii
      | some _, none => true
      | _, _ => false
    if chooseBold then
      match b with
      | some (bi, content) =>
        (if bi > 0 then [MdInline.text (String.mk (remaining.take bi))] else [])
          ++ [MdInline.bold (String.mk content)]
          ++ renderInlineFuel fuel (remaining.drop (bi + (content.length + 4)))
      | none => []
    else
      match i with
      | some (ii, leading, content) =>
        let nextIndex := ii + leading.length
        let match0Len := leading.length + content.length + 2
        let consumed := (ii + leading.length) + match0Len - (if leading.isEmpty then 1 else 0)
        (if nextIndex > 0 then [MdInline.text (String.mk (remaining.take nextIndex))] else [])
          ++ (if leading.isEmpty then [] else [MdInline.text (String.mk leading)])
          ++ [MdInline.italic (String.mk content)]
          ++ renderInlineFuel fuel (remaining.drop consumed)
      | none => [MdInline.text (String.mk remaining)]

/-- `renderInline` of the source on one line. -/
def renderInline (l : List Char) : List MdInline :=
  renderInlineFuel l.length l

/-- Split on `/\r?\n/` (a lone carriage return is not a separator). -/
def splitLinesAux (acc : List Char) : List Char → List (List Char)
  | [] => [acc.reverse]
  | '\r' :: '\n' :: rest => acc.reverse :: splitLinesAux [] rest
  | '\n' :: rest => acc.reverse :: splitLinesAux [] rest
  | c :: rest => splitLinesAux (c :: acc) rest

/-- The line list of `text.split(/\r?\n/)`. -/
def splitLines (s : String) : List (List Char) := splitLinesAux [] s.data

/-- Test for `/^\s*[*-]\s+/`: optional leading whitespace, a `*` or `-`
marker, then at least one whitespace character. -/
def isListLine (line : List Char) : Bool :=
  match line.dropWhile Char.isWhitespace with
  | c :: d :: _ => (c == '*' || c == '-') && d.isWhitespace
  | _ => false

/-- `li.replace(/^\s*[*-]\s+/, '')`: strip the marker when present
(greedy `\s+` removes the whole following whitespace run). -/
def stripListMarker (line : List Char) : List Char :=
  match line.dropWhile Char.isWhitespace with
  | c :: d :: rest =>
    if (c == '*' || c == '-') && d.isWhitespace then (d :: rest).dropWhile Char.isWhitespace
    else line
  | _ => line

/-- `line.trim() === ''`. -/
def isBlankLine (line : List Char) : Bool := (jsTrim line).isEmpty

/-- `flushList`: an empty buffer contributes nothing; otherwise one list
block whose items are the inline-rendered, marker-stripped lines. -/
def flushListBuffer (buf : List (List Char)) : List MdBlock :=
  match buf with
  | [] => []
  | _ => [MdBlock.bullets (buf.map (fun li => renderInline (stripListMarker li)))]

/-- The line loop of `renderMarkdownLite`: consecutive list lines are
buffered; any other line first flushes the buffer, then contributes a
blank spacer or a paragraph; the buffer is flushed again at the end. -/
def buildBlocks (buf : List (List Char)) : List (List Char) → List MdBlock
  | [] => flushListBuffer buf
  | line :: rest =>
    if isListLine line then buildBlocks (buf ++ [line]) rest
    else
      flushListBuffer buf
        ++ (if isBlankLine line then [MdBlock.blank] else [MdBlock.para (renderInline line)])
        ++ buildBlocks [] rest

/-- `renderMarkdownLite` from ChatbotConsole.jsx as a block-structure
function (empty input renders nothing). -/
def renderMarkdownLite (s : String) : List MdBlock :=
  if s.data.isEmpty then [] else buildBlocks [] (splitLines s)


/-! ## Lemmas: the loop accumulator of `calculateRuleRisk` versus the
declarative counts and the longest stress run. -/

theorem clip5_max (a b : Nat) : clip5 (max a b) = max (clip5 a) (clip5 b) := by
  simp only [clip5]
  split_ifs <;> omega

theorem clip5_ge_iff (n : Nat) : clip5 n ≥ 5 ↔ n ≥ 5 := by
  simp only [clip5]
  split_ifs <;> omega

theorem runLen_le_longestRun (p : α → Bool) (l : List α) : runLen p l ≤ longestRun p l := by
  cases l with
  | nil => simp [runLen, longestRun]
  | cons x t => simp only [longestRun]; exact Nat.le_max_left _ _

theorem extStreak_eq (p : α → Bool) (l : List α) :
    ∀ cur, extStreak p cur l =
      max (if runLen p l = 0 then 0 else cur + runLen p l) (longestRun p l) := by
  induction l with
  | nil => intro cur; simp [extStreak, runLen, longestRun]
  | cons x t ih =>
    intro cur
    cases hp : p x with
    | true =>
      simp only [extStreak, runLen, longestRun, hp, if_true, ite_true, Bool.true_eq_false,
        ite_false, Nat.succ_ne_zero, if_false]
      rw [ih (cur + 1)]
      have := runLen_le_longestRun p t
      simp only [Nat.max_def]
      split_ifs <;> omega
    | false =>
      simp only [extStreak, runLen, longestRun, hp, ite_true, Bool.false_eq_true, ite_false,
        if_false]
      rw [ih 0]
      have := runLen_le_longestRun p t
      simp only [Nat.max_def]
      split_ifs <;> omega

theorem extStreak_zero (p : α → Bool) (l : List α) : extStreak p 0 l = longestRun p l := by
  rw [extStreak_eq]
  have := runLen_le_longestRun p l
  simp only [Nat.max_def]
  split_ifs <;> omega

theorem foldl_ruleStep_headache (l : List (Option CheckinAnswers)) :
    ∀ st, (List.foldl ruleStep st l).headacheDays = st.headacheDays + l.countP headacheOf := by
  induction l with
  | nil => intro st; simp
  | cons x t ih =>
    intro st
    rw [List.foldl_cons, ih, List.countP_cons]
    simp only [ruleStep]
    split_ifs <;> omega

theorem foldl_ruleStep_sleep (l : List (Option CheckinAnswers)) :
    ∀ st, (List.foldl ruleStep st l).lowSleepDays = st.lowSleepDays + l.countP sleepLowOf := by
  induction l with
  | nil => intro st; simp
  | cons x t ih =>
    intro st
    rw [List.foldl_cons, ih, List.countP_cons]
    simp only [ruleStep]
    split_ifs <;> omega

theorem foldl_ruleStep_cluster (l : List (Option CheckinAnswers)) :
    ∀ st, (List.foldl ruleStep st l).clusterHighDays = st.clusterHighDays + l.countP clusterOf := by
  induction l with
  | nil => intro st; simp
  | cons x t ih =>
    intro st
    rw [List.foldl_cons, ih, List.countP_cons]
    simp only [ruleStep]
    split_ifs <;> omega

theorem foldl_ruleStep_score (l : List (Option CheckinAnswers)) :
    ∀ st, (List.foldl ruleStep st l).score =
      st.score + 2 * l.countP headacheOf + 3 * l.countP sleepLowOf
        + 4 * l.countP stressHighOf + 6 * l.countP clusterOf := by
  induction l with
  | nil => intro st; simp
  | cons x t ih =>
    intro st
    rw [List.foldl_cons, ih]
    simp only [ruleStep, List.countP_cons]
    split_ifs <;> omega

theorem foldl_ruleStep_streak (l : List (Option CheckinAnswers)) :
    ∀ st, (List.foldl ruleStep st l).highStressStreak =
      max st.highStressStreak (clip5 (extStreak stressHighOf st.currentStressStreak l)) := by
  induction l with
  | nil => intro st; simp [extStreak, clip5]
  | cons x t ih =>
    intro st
    rw [List.foldl_cons, ih]
    cases hp : stressHighOf x with
    | true =>
      simp only [ruleStep, extStreak, hp, ite_true]
      rw [clip5_max]
      simp only [clip5, Nat.max_def]
      split_ifs <;> omega
    | false =>
      simp only [ruleStep, extStreak, hp, Bool.false_eq_true, ite_false]
      simp only [clip5, Nat.max_def]
      split_ifs <;> omega

/-! ## Claim theorems -/

/-- C1: for every ordered record sequence, the rule-based cluster scorer
equals the declarative first-match classification: with `h` headache
days, `sl` low-sleep days, `hs` high-stress days, `c` symptom-cluster
days and score `2h + 3sl + 4hs + 6c`, the rules are tried in the fixed
precedence order (≥2 cluster days → High; longest consecutive high-stress
run ≥5 → Mid; ≥3 headache days and ≥3 low-sleep days → Mid; score ≥20 →
High; score ≥10 → Mid; otherwise Low), the first match fixing level and
reason.  In particular any sequence with at least 2 cluster days is
classified High. -/
theorem calculateRuleRisk_rule_precedence (items : List (Option CheckinAnswers)) :
    calculateRuleRisk items = ruleRiskSpec items ∧
    (items.countP clusterOf ≥ 2 → (calculateRuleRisk items).level = "High") := by
  have hmain : calculateRuleRisk items = ruleRiskSpec items := by
    simp only [calculateRuleRisk, ruleRiskSpec, classifyRisk]
    rw [foldl_ruleStep_headache, foldl_ruleStep_sleep, foldl_ruleStep_cluster,
      foldl_ruleStep_score, foldl_ruleStep_streak]
    simp only [initRuleState]
    rw [extStreak_zero]
    simp only [Nat.zero_add, Nat.zero_max, clip5_ge_iff]
  refine ⟨hmain, fun h => ?_⟩
  rw [hmain]
  simp only [ruleRiskSpec]
  rw [if_pos h]

/-- C1 witness: two symptom-cluster days with accumulated score only 12
are classified High. -/
theorem calculateRuleRisk_rule_precedence_witness :
    clusterDemo.countP clusterOf ≥ 2 ∧ (calculateRuleRisk clusterDemo).level = "High" :=
  ⟨by decide, (calculateRuleRisk_rule_precedence clusterDemo).2 (by decide)⟩

/-- C2 counterexample: the claimed case-insensitive label mapping is
false of the code.  On an answer set whose labels are all the lower-case
"mild – a", the source's `scoreFromAnswers` returns 0.5 (every lookup
misses the case-sensitive keys and takes the unmapped default), while
the claim's case-insensitive mapping would give 0.7. -/
theorem scoreFromAnswers_caseless_cex :
    scoreFromAnswers (some lowerMildAnswers) = 1/2 ∧
    scoreFromAnswersClaim (some lowerMildAnswers) = 7/10 ∧
    ((1 : ℚ)/2 ≠ 7/10) := by
  have h : classifyLabel (some "mild – a") = .unmapped := by decide
  have h2 : classifyLabelCaseless (some "mild – a") = .mildKey := by decide
  refine ⟨?_, ?_, by norm_num⟩
  · simp only [scoreFromAnswers, lowerMildAnswers, map4, h, severityValue]
    norm_num [roundTo3, round_eq]
  · simp only [scoreFromAnswersClaim, lowerMildAnswers, map4ClaimCaseless, h2, severityValue]
    norm_num [roundTo3, round_eq]

/-- C2 (amended): `scoreFromAnswers` maps each answer label by exact,
case-sensitive lookup of the label part before the `' –'` separator
(`None`/`Normal` ↦ 1.0, `Mild` ↦ 0.7, `Moderate` ↦ 0.4, `Severe` ↦ 0.2,
anything else ↦ 0.5), and returns the mean of the twelve mapped values
rounded to 3 decimals and clamped to [0,1]; the result is always in
[0,1], and as a pure function it yields the same score for the same
answers on every call. -/
theorem scoreFromAnswers_exact_mapping (oa : Option Answers) (a : Answers) :
    (0 ≤ scoreFromAnswers oa ∧ scoreFromAnswers oa ≤ 1) ∧
    scoreFromAnswers (some a) =
      max 0 (min 1 (roundTo3 (
        (severityValue (classifyLabel a.ns_q1) + severityValue (classifyLabel a.ns_q2)
          + severityValue (classifyLabel a.ns_q3) + severityValue (classifyLabel a.ns_q4)
          + severityValue (classifyLabel a.ns_q5) + severityValue (classifyLabel a.ns_q6)
          + severityValue (classifyLabel a.ns_q7) + severityValue (classifyLabel a.ns_q8)
          + severityValue (classifyLabel a.ns_q9) + severityValue (classifyLabel a.ns_q10)
          + severityValue (classifyLabel a.ns_q11) + severityValue (classifyLabel a.ns_q12))
          / 12))) := by
  constructor
  · cases oa with
    | none =>
      constructor <;> norm_num [scoreFromAnswers]
    | some b =>
      simp only [scoreFromAnswers]
      constructor
      · exact le_max_left 0 _
      · exact max_le (by norm_num) (min_le_left 1 _)
  · simp only [scoreFromAnswers, map4, List.sum_cons, List.sum_nil, List.length_cons,
      List.length_nil]
    norm_num
    ring_nf

/-- C10: `scoreFromAnswers` on a missing (`null`/`undefined`) answer set
returns exactly the neutral mid score 0.5, not 0. -/
theorem scoreFromAnswers_missing_default :
    scoreFromAnswers none = 1/2 ∧ ((1 : ℚ)/2 ≠ 0) :=
  ⟨rfl, by norm_num⟩

/-- C3: the trend of an ordered risk-point sequence is empty for fewer
than 6 points; for at least 6 points it is a pure function of the two
3-point window means (the mean of the 3 points ending 3-before-last and
the mean of the last 3): delta above 0.06 gives "Worsening", below
−0.06 gives "Improving", otherwise "Stable" — always one of those three
labels. -/
theorem riskTrend_windows (pts : List ℚ) :
    (pts.length < 6 → riskTrend pts = "") ∧
    (6 ≤ pts.length →
      riskTrend pts =
        trendOfMeans (((pts.drop (pts.length - 6)).take 3).sum / 3)
          ((pts.drop (pts.length - 3)).sum / 3) ∧
      (riskTrend pts = "Worsening" ∨ riskTrend pts = "Improving" ∨ riskTrend pts = "Stable")) := by
  constructor
  · intro h
    simp only [riskTrend]
    rw [if_neg (by omega)]
  · intro h
    have heq : riskTrend pts =
        trendOfMeans (((pts.drop (pts.length - 6)).take 3).sum / 3)
          ((pts.drop (pts.length - 3)).sum / 3) := by
      simp only [riskTrend, trendOfMeans]
      rw [if_pos h]
    refine ⟨heq, ?_⟩
    rw [heq]
    unfold trendOfMeans
    split_ifs <;> simp

/-- C3 witness: a 6-point series jumping from 0 to 1 has at least 6
points and receives one of the three labels. -/
theorem riskTrend_windows_witness :
    6 ≤ demoPoints.length ∧
    (riskTrend demoPoints = "Worsening" ∨ riskTrend demoPoints = "Improving" ∨
      riskTrend demoPoints = "Stable") :=
  ⟨by decide, ((riskTrend_windows demoPoints).2 (by decide)).2⟩

/-- C4 (code bug): over a stream of four consecutive non-canceled
failures the upload pipeline schedules four automatic retries — more than
`maxRetries = 3` — because every (re-)entry of `submit` resets the
surfaced counter to 0 before the `retryCount < maxRetries` comparison can
bind.  Cancellation does stop retries: a canceled attempt schedules
none. -/
theorem submitAttemptRetries_exceeds_max :
    submitAttemptRetries 0 (List.replicate 4 .failure) = 4 ∧
    maxRetries < submitAttemptRetries 0 (List.replicate 4 .failure) ∧
    submitAttemptRetries 0 [.failure, .canceled] = 1 ∧
    submitAttemptRetries 0 [.canceled] = 0 := by
  decide

/-- C5 (code bug): on the history `[user "A", assistant "B"]`,
`regenerateLast` does truncate to `[user "A"]` and re-prime the input
with "A", but the scheduled `send` appends the primed input as a fresh
user turn, so the history gains a second copy of `user "A"` before the
new assistant reply. -/
theorem regenerateLast_duplicates_user_turn :
    (regenerateLast chatAB).messages = [⟨ChatRole.user, "A"⟩] ∧
    (regenerateLast chatAB).input = "A" ∧
    (chatSend (regenerateLast chatAB) "R").messages =
      [⟨ChatRole.user, "A"⟩, ⟨ChatRole.user, "A"⟩, ⟨ChatRole.assistant, "R"⟩] ∧
    (chatSend (regenerateLast chatAB) "R").messages.countP
      (fun m => m == ⟨ChatRole.user, "A"⟩) = 2 := by
  decide

/-- C6: with the repository holding days newest first, if the latest
record is dated today then `onSubmit` short-circuits without issuing the
submission request; and after a successful submission stores today's
record, the re-query reports "submitted today", a second attempt issues
no request, and exactly one record was added. -/
theorem checkin_at_most_one_per_day (repo : List Nat) (today : Nat) (valid : Bool) :
    (checkSubmittedToday today repo = true →
      submitIssuesRequest false (checkSubmittedToday today repo) valid = false) ∧
    checkSubmittedToday today (repoAfterSubmit today repo) = true ∧
    submitIssuesRequest false (checkSubmittedToday today (repoAfterSubmit today repo)) valid
      = false ∧
    (repoAfterSubmit today repo).length = repo.length + 1 := by
  refine ⟨fun h => ?_, ?_, ?_, rfl⟩
  · simp [submitIssuesRequest, h]
  · simp [checkSubmittedToday, repoAfterSubmit]
  · simp [submitIssuesRequest, checkSubmittedToday, repoAfterSubmit]

/-- C6 witness: with the latest record dated today (day 5), the
submission request is not issued. -/
theorem checkin_at_most_one_per_day_witness :
    checkSubmittedToday 5 [5] = true ∧
    submitIssuesRequest false (checkSubmittedToday 5 [5]) true = false :=
  ⟨by decide, (checkin_at_most_one_per_day [5] 5 true).1 (by decide)⟩

/-- C8 (code bug): on the claim's own example `"**x** and *y*"` the
renderer produces the bold span "x", the plain span " and ", an extra
duplicated plain span " ", and the italic span "y" — not the claimed
three-span output — because the italic branch pushes the leading
character twice; and the text after an italic match is not passed through
verbatim (the source's `consumed` arithmetic over-consumes by one:
`" *y*Z"` loses the "Z").  The list-grouping half of the claim does hold
on `"* a\n* b"`: exactly one list block. -/
theorem renderMarkdownLite_duplicated_leading :
    renderMarkdownLite "**x** and *y*" =
      [MdBlock.para [MdInline.bold "x", MdInline.text " and ", MdInline.text " ",
        MdInline.italic "y"]] ∧
    renderMarkdownLite "**x** and *y*" ≠
      [MdBlock.para [MdInline.bold "x", MdInline.text " and ", MdInline.italic "y"]] ∧
    renderInline (" *y*Z").data =
      [MdInline.text " ", MdInline.text " ", MdInline.italic "y"] ∧
    renderMarkdownLite "* a\n* b" = [MdBlock.bullets [[MdInline.text "a"], [MdInline.text "b"]]] := by
  decide

theorem issuesFallbackNonempty (l : List String) :
    (if l.length > 0 then l else ["Good extraction quality"]) ≠ [] := by
  split_ifs with h
  · exact List.ne_nil_of_length_pos h
  · simp

/-- C7: the extraction-quality score always lies in [0,1] and the issues
list is never empty; on a present extraction result the score is exactly
1.0 minus the five deductions (0.4 for zero labs; else 0.2 when fewer
than half the labs reach confidence 0.7 and 0.2 when fewer than 70% have
a non-null value; 0.1 without a patient identifier; 0.1 without a report
date), clamped to [0,1]; and when no deduction applies the issues list is
the single positive message. -/
theorem extractionQuality_spec (od : Option ExtractedReport) (data : ExtractedReport) :
    (0 ≤ (calculateExtractionQuality od).score ∧ (calculateExtractionQuality od).score ≤ 1 ∧
      (calculateExtractionQuality od).issues ≠ []) ∧
    (calculateExtractionQuality (some data)).score =
      max 0 (min 1 (1 - dedNoLabs data - dedLowConf data - dedManyMissing data
        - dedNoPatient data - dedNoDate data)) ∧
    ((dedNoLabs data = 0 ∧ dedLowConf data = 0 ∧ dedManyMissing data = 0 ∧
        dedNoPatient data = 0 ∧ dedNoDate data = 0) →
      (calculateExtractionQuality (some data)).issues = ["Good extraction quality"]) := by
  refine ⟨?_, ?_, ?_⟩
  · cases od with
    | none =>
      refine ⟨by norm_num [calculateExtractionQuality],
        by norm_num [calculateExtractionQuality], by simp [calculateExtractionQuality]⟩
    | some d =>
      simp only [calculateExtractionQuality]
      exact ⟨le_max_left 0 _, max_le (by norm_num) (min_le_left 1 _),
        issuesFallbackNonempty _⟩
  · simp only [calculateExtractionQuality, dedNoLabs, dedLowConf, dedManyMissing,
      dedNoPatient, dedNoDate, beq_iff_eq, Bool.and_eq_true, Bool.not_eq_true',
      decide_eq_true_eq, beq_eq_false_iff_ne, ne_eq]
  · rintro ⟨h1, h2, h3, h4, h5⟩
    have hc1 : ¬((labsOf data).length = 0) := by
      intro hc
      rw [dedNoLabs, if_pos hc] at h1
      norm_num at h1
    have hc2 : ¬((((labsOf data).filter confAtLeast).length : ℚ)
        / ((labsOf data).length : ℚ) < 1/2) := by
      intro hc
      rw [dedLowConf, if_pos ⟨hc1, hc⟩] at h2
      norm_num at h2
    have hc3 : ¬((((labsOf data).filter hasValue).length : ℚ)
        < ((labsOf data).length : ℚ) * (7/10)) := by
      intro hc
      rw [dedManyMissing, if_pos ⟨hc1, hc⟩] at h3
      norm_num at h3
    have hc4 : ¬(truthyStr (metaOf data).patientName = false ∧
        truthyStr (metaOf data).patientId = false) := by
      intro hc
      rw [dedNoPatient, if_pos hc] at h4
      norm_num at h4
    have hc5 : ¬(truthyStr (metaOf data).date = false) := by
      intro hc
      rw [dedNoDate, if_pos hc] at h5
      norm_num at h5
    have hb1 : ((labsOf data).length == 0) = false := by
      simp [hc1]
    have hb2 : decide ((((labsOf data).filter confAtLeast).length : ℚ)
        / ((labsOf data).length : ℚ) < 1/2) = false := decide_eq_false hc2
    have hb3 : decide ((((labsOf data).filter hasValue).length : ℚ)
        < ((labsOf data).length : ℚ) * (7/10)) = false := decide_eq_false hc3
    have hb4 : (!truthyStr (metaOf data).patientName
        && !truthyStr (metaOf data).patientId) = false := by
      cases hpn : truthyStr (metaOf data).patientName <;>
        cases hpi : truthyStr (metaOf data).patientId <;> simp_all
    have hb5 : truthyStr (metaOf data).date = true := by
      cases hd : truthyStr (metaOf data).date <;> simp_all
    rw [one_div] at hc2
    simp [calculateExtractionQuality, hb1, hb2, hb3, hb4, hb5, hc2, hc3]

/-- C7 witness: on a clean result (one confident, valued lab and complete
meta) no deduction applies and the issues list is exactly the positive
message. -/
theorem extractionQuality_spec_witness :
    (dedNoLabs cleanReport = 0 ∧ dedLowConf cleanReport = 0 ∧ dedManyMissing cleanReport = 0 ∧
      dedNoPatient cleanReport = 0 ∧ dedNoDate cleanReport = 0) ∧
    (calculateExtractionQuality (some cleanReport)).issues = ["Good extraction quality"] := by
  have h1 : dedNoLabs cleanReport = 0 := by
    rw [dedNoLabs, if_neg]
    simp [labsOf, cleanReport]
  have h2 : dedLowConf cleanReport = 0 := by
    rw [dedLowConf, if_neg]
    rintro ⟨-, hlt⟩
    rw [show (labsOf cleanReport).filter confAtLeast = labsOf cleanReport from by
      norm_num [labsOf, cleanReport, List.filter, confAtLeast]] at hlt
    norm_num [labsOf, cleanReport] at hlt
  have h3 : dedManyMissing cleanReport = 0 := by
    rw [dedManyMissing, if_neg]
    rintro ⟨-, hlt⟩
    rw [show (labsOf cleanReport).filter hasValue = labsOf cleanReport from by
      norm_num [labsOf, cleanReport, List.filter, hasValue]] at hlt
    norm_num [labsOf, cleanReport] at hlt
  have h4 : dedNoPatient cleanReport = 0 := by
    rw [dedNoPatient, if_neg]
    rintro ⟨hpn, -⟩
    simp [metaOf, cleanReport, truthyStr] at hpn
  have h5 : dedNoDate cleanReport = 0 := by
    rw [dedNoDate, if_neg]
    intro hd
    simp [metaOf, cleanReport, truthyStr] at hd
  exact ⟨⟨h1, h2, h3, h4, h5⟩,
    (extractionQuality_spec none cleanReport).2.2 ⟨h1, h2, h3, h4, h5⟩⟩

/-- C9 counterexample: on an ok, well-formed service result whose
questions all fail the filter and whose version is "2.0", the session
substitutes the fallback questions but keeps version "2.0" — not the
"fallback" sentinel the claim requires whenever filtering empties the
set. -/
theorem fetchQuestions_version_cex :
    (allInvalidResult.questions.getD []).filter isValidQuestion = [] ∧
    fetchQuestions demoFallback (.ok allInvalidResult) = (demoFallback, "2.0") ∧
    (fetchQuestions demoFallback (.ok allInvalidResult)).2 ≠ "fallback" := by
  decide

/-- C9 (amended): the session keeps only questions with non-empty id,
non-empty prompt, type exactly "scale" and a non-empty option list; the
fallback set tagged with the "fallback" sentinel is substituted when the
service call throws, reports not-ok, or returns a non-array question
set.  When an ok, well-formed set is emptied by the filter, the fallback
questions are substituted but the version is the service-provided one
(defaulting to "1.0" when empty), not the sentinel. -/
theorem fetchQuestions_filter_fallback (fb : List Question) (r : Except Unit GenResult) :
    ((fetchQuestions fb r).1 = fb ∨
      (∀ q ∈ (fetchQuestions fb r).1, isValidQuestion q = true)) ∧
    (∀ e, r = Except.error e → fetchQuestions fb r = (fb, "fallback")) ∧
    (∀ res, r = Except.ok res → res.ok = false → fetchQuestions fb r = (fb, "fallback")) ∧
    (∀ res, r = Except.ok res → res.questions = none → fetchQuestions fb r = (fb, "fallback")) ∧
    (∀ res qs, r = Except.ok res → res.ok = true → res.questions = some qs →
      (fetchQuestions fb r).2 =
        (if res.question_version != "" then res.question_version else "1.0") ∧
      (qs.filter isValidQuestion = [] → (fetchQuestions fb r).1 = fb) ∧
      (qs.filter isValidQuestion ≠ [] →
        (fetchQuestions fb r).1 = qs.filter isValidQuestion)) := by
  refine ⟨?_, ?_, ?_, ?_, ?_⟩
  · cases r with
    | error e => left; rfl
    | ok res =>
      cases hq : res.questions with
      | none => left; simp [fetchQuestions, hq]
      | some qs =>
        cases hok : res.ok with
        | false => left; simp [fetchQuestions, hq, hok]
        | true =>
          by_cases hf : (qs.filter isValidQuestion).length > 0
          · right
            intro q hmem
            simp only [fetchQuestions, hq, hok, if_pos hf, ite_true] at hmem
            exact List.of_mem_filter hmem
          · left
            simp [fetchQuestions, hq, hok, hf]
  · rintro e rfl; rfl
  · rintro res rfl hok
    cases hq : res.questions with
    | none => simp [fetchQuestions, hq]
    | some qs => simp [fetchQuestions, hq, hok]
  · rintro res rfl hq
    simp [fetchQuestions, hq]
  · rintro res qs rfl hok hq
    refine ⟨?_, ?_, ?_⟩
    · simp [fetchQuestions, hq, hok]
    · intro hempty
      simp [fetchQuestions, hq, hok, hempty]
    · intro hne
      have hlen : (qs.filter isValidQuestion).length > 0 := List.length_pos.mpr hne
      simp [fetchQuestions, hq, hok, hlen]

/-- C9 witness: an ok result with one valid question and version "3.0" is
kept as its filtered set with its own version. -/
theorem fetchQuestions_filter_fallback_witness :
    (fetchQuestions demoFallback (.ok goodGenResult)).2 =
      (if goodGenResult.question_version != "" then goodGenResult.question_version
        else "1.0") ∧
    (fetchQuestions demoFallback (.ok goodGenResult)).1 =
      [goodQuestion].filter isValidQuestion := by
  have h := (fetchQuestions_filter_fallback demoFallback
    (.ok goodGenResult)).2.2.2.2 goodGenResult [goodQuestion] rfl rfl rfl
  exact ⟨h.1, h.2.2 (by decide)⟩
